import Mathlib

/-!
Verification development for the dac2bids repository.

The repository has two generations of the same tool:
* `dac2bids.py` — a Python 2 script (its own comment "For Python 3 we could
  have used @functools.lru_cache" documents the Python 2 target) that
  classifies DICOM folders and emits a dcm2niibatch YAML manifest;
* `refactored.py` — a Python 3 rewrite of the naming logic (`Bidifyer` and
  its subclasses) plus `tests.py`.

This file shallowly embeds both: Python scalar values that flow through the
code are modelled by `PyScalar` (int or str), Python exceptions by `PyError`,
and fallible code by `Except PyError`.  All definitions are executable and
structurally recursive so that concrete runs reduce by `rfl`/`decide`.
-/

/-- The Python exceptions observable in the embedded code. `malformedLabel`
and `inconsistentNaming` stand for the repository's `BidsMalformedLabelError`
and `BidsInconsistentNamingError`; the rest are Python builtins. -/
inductive PyError where
  | valueError
  | attributeError
  | typeError
  | nameError
  | malformedLabel
  | inconsistentNaming
deriving DecidableEq, Repr

/-- A Python scalar as it flows through the configuration dictionaries:
either an `int` or a `str`. -/
inductive PyScalar where
  | int (n : Int)
  | str (s : String)
deriving DecidableEq, Repr

/-- Decimal digits of `n`, most significant first, written with explicit fuel
so that the definition is structurally recursive (fuel `n` always suffices
because `n / 10 < n` for `n > 0`).  Returns `[]` for `n = 0`. -/
def natDecimalAux : Nat → Nat → List Char
  | 0, _ => []
  | fuel + 1, n => if n = 0 then [] else natDecimalAux fuel (n / 10) ++ [Nat.digitChar (n % 10)]

/-- The decimal rendering of a natural number, as Python `str` produces it
(`str(0) = "0"`). -/
def natDecimal (n : Nat) : String :=
  if n = 0 then "0" else ⟨natDecimalAux n n⟩

/-- Python `str` on an integer: optional minus sign followed by the decimal
digits. -/
def pyStrInt (n : Int) : String :=
  (if n < 0 then "-" else "") ++ natDecimal n.natAbs

/-- Python `str` applied to a configuration scalar. -/
def pyStr : PyScalar → String
  | .int n => pyStrInt n
  | .str s => s

/-- Python `str.isalnum`: true iff the string is non-empty and every
character is alphanumeric.  (The model restricts alphanumeric to ASCII
letters and digits; the labels the repository handles are ASCII.) -/
def pyIsAlnum (s : String) : Bool :=
  !s.data.isEmpty && s.data.all Char.isAlphanum

/-- Python `v == ""` on a scalar: an `int` never equals `""`. -/
def pyEqEmpty : PyScalar → Bool
  | .int _ => false
  | .str s => s = ""

/-- Reads a decimal digit string (used to model Python `int(...)`). -/
def pyNatAux : List Char → Nat → Option Nat
  | [], acc => some acc
  | c :: rest, acc => if c.isDigit then pyNatAux rest (10 * acc + (c.toNat - 48)) else none

/-- Python `int(s)` for an optionally minus-signed digit string.  (Python
additionally strips surrounding whitespace and accepts a leading `+`; the
protocol values the repository reads are plain digit strings.) -/
def pyInt (s : String) : Option Int :=
  match s.data with
  | [] => none
  | ['-'] => none
  | '-' :: rest => (pyNatAux rest 0).map (fun n => -(n : Int))
  | l => (pyNatAux l 0).map (fun n => (n : Int))

/-- Boolean infix test on character lists, modelling Python `needle in hay`
for strings. -/
def listInfix (needle : List Char) : List Char → Bool
  | [] => needle.isEmpty
  | c :: rest => needle.isPrefixOf (c :: rest) || listInfix needle rest

/-- Python `needle in hay` substring containment. -/
def pyInStr (needle hay : String) : Bool :=
  listInfix needle.data hay.data

/-- CPython 2 comparison `a > b` where `a` may be `None` (modelled `none`):
in Python 2 `None` orders below every integer, so `None > b` is `False`.
`dac2bids.py` relies on this (its `lru_cache` comment pins it to Python 2). -/
def py2IntGtOpt (a : Option Int) (b : Int) : Bool :=
  match a with
  | none => false
  | some n => decide (b < n)

/-- Left-pads a string with `'0'` to width `w`, as Python's zero-padded
format specifications do. -/
def zfill (w : Nat) (s : String) : String :=
  (⟨List.replicate (w - s.length) '0'⟩ : String) ++ s

/-- Python `"{:0Wd}".format(n)`: decimal with the sign leading the zero
padding and a total width of at least `w`. -/
def pyFormatD (w : Nat) (n : Int) : String :=
  if n < 0 then "-" ++ zfill (w - 1) (natDecimal n.natAbs) else zfill w (natDecimal n.natAbs)

/-- `formatter` from refactored.py lines 39-51: builds `"{:0Pd}"` and applies
it.  The `d` format code accepts only integers; on any string (including the
empty string) `str.format` raises `ValueError` ("Unknown format code 'd'"). -/
def formatter (precision : Nat) (x : PyScalar) : Except PyError String :=
  match x with
  | .int n => .ok (pyFormatD precision n)
  | .str _ => .error .valueError

/-- Python `s[:-1]`: the string without its last character (`""` stays `""`). -/
def pyDropLast (s : String) : String :=
  ⟨s.data.dropLast⟩

/-- Reads a most-significant-first digit list back as a number (used to state
that a formatted string represents its input in base 10). -/
def decodeDecimal (l : List Char) : Nat :=
  l.foldl (fun acc c => 10 * acc + (c.toNat - 48)) 0

/-! ## Embedding of `refactored.py` (`Bidifyer`) -/

/-- The caller-supplied `bids_config` dictionary: each recognized key is
present or absent.  Field order follows the reads in `Bidifyer.__init__`. -/
structure BidsConfigDict where
  subject_number : Option PyScalar
  session_number : Option PyScalar
  subject_label : Option PyScalar
  session_label : Option PyScalar
  task_label : Option PyScalar
  acquisition_label : Option PyScalar
  acquisition_number : Option PyScalar
  pe_direction_label : Option PyScalar
  run_index : Option PyScalar
deriving DecidableEq, Repr

/-- The caller-supplied dictionary with no keys set (Python `{}`). -/
def emptyBidsConfigDict : BidsConfigDict :=
  BidsConfigDict.mk none none none none none none none none none

/-- `self.config` after `__init__` applied the `get` defaults, fields in the
dictionary's insertion order (refactored.py lines 190-198). -/
structure BidsConfig where
  subject_number : PyScalar
  session_number : PyScalar
  subject_label : PyScalar
  session_label : PyScalar
  task_label : PyScalar
  acquisition_label : PyScalar
  acquisition_number : PyScalar
  pe_direction_label : PyScalar
  run_index : PyScalar
deriving DecidableEq, Repr

/-- The first positional argument of `Bidifyer.__init__`: normally the
configuration dictionary, but the buggy subclass constructors pass the
partially-built instance itself (`super().__init__(self, ...)`), modelled by
`obj`. -/
inductive PyConfigArg where
  | dict (d : BidsConfigDict)
  | obj
deriving DecidableEq, Repr

/-- `bids_config.get(key, default)`.  A `Bidifyer` instance has no `get`
method, so on `obj` the attribute lookup raises `AttributeError`. -/
def pyGet (arg : PyConfigArg) (field : BidsConfigDict → Option PyScalar) (default : PyScalar) :
    Except PyError PyScalar :=
  match arg with
  | .obj => .error .attributeError
  | .dict d => .ok ((field d).getD default)

/-- `Bidifyer.subject_tag` (lines 230-245): always emits the `sub-` prefix,
label, then the subject number formatted at the configured precision. -/
def subject_tag (cfg : BidsConfig) (format_precision : Nat) : Except PyError String := do
  let number ← formatter format_precision cfg.subject_number
  .ok ("sub-" ++ pyStr cfg.subject_label ++ number)

/-- `Bidifyer.session_tag` (lines 247-270): empty when both label and number
are empty; the number, when present, is formatted at the configured
precision. -/
def session_tag (cfg : BidsConfig) (format_precision : Nat) : Except PyError String :=
  if pyEqEmpty cfg.session_label && pyEqEmpty cfg.session_number then .ok ""
  else do
    let number ← if !pyEqEmpty cfg.session_number
      then formatter format_precision cfg.session_number
      else .ok ""
    .ok ("ses-" ++ pyStr cfg.session_label ++ number)

/-- `Bidifyer.task_tag` (lines 272-287). -/
def task_tag (cfg : BidsConfig) : String :=
  if pyEqEmpty cfg.task_label then "" else "task-" ++ pyStr cfg.task_label

/-- `Bidifyer.acquisition_tag` (lines 290-315): the acquisition number is
formatted by a fresh `formatter(precision=2)`, independent of the configured
global precision. -/
def acquisition_tag (cfg : BidsConfig) : Except PyError String :=
  if pyEqEmpty cfg.acquisition_label && pyEqEmpty cfg.acquisition_number then .ok ""
  else do
    let number ← if !pyEqEmpty cfg.acquisition_number
      then formatter 2 cfg.acquisition_number
      else .ok ""
    .ok ("acq-" ++ pyStr cfg.acquisition_label ++ number)

/-- `Bidifyer.pe_direction_tag` (lines 317-332). -/
def pe_direction_tag (cfg : BidsConfig) : String :=
  if pyEqEmpty cfg.pe_direction_label then "" else "dir-" ++ pyStr cfg.pe_direction_label

/-- `Bidifyer.run_tag` (lines 334-350): the run index is always formatted by
a fresh `formatter(precision=2)`. -/
def run_tag (cfg : BidsConfig) : Except PyError String :=
  if pyEqEmpty cfg.run_index then .ok ""
  else do
    let number ← formatter 2 cfg.run_index
    .ok ("run-" ++ number)

/-- The `self.__tags` tuple captured in `__init__` (lines 206-207): the six
sub-tags in the fixed BIDS order. -/
structure SixTags where
  subjectTag : String
  sessionTag : String
  taskTag : String
  acquisitionTag : String
  peDirectionTag : String
  runTag : String
deriving DecidableEq, Repr

/-- The `__tags` tuple as a list, in the order written in the source. -/
def SixTags.toList (t : SixTags) : List String :=
  [t.subjectTag, t.sessionTag, t.taskTag, t.acquisitionTag, t.peDirectionTag, t.runTag]

/-- Evaluates the six tag properties in the order `__init__` builds
`self.__tags`. -/
def evalTags (cfg : BidsConfig) (format_precision : Nat) : Except PyError SixTags := do
  let s1 ← subject_tag cfg format_precision
  let s2 ← session_tag cfg format_precision
  let s3 := task_tag cfg
  let s4 ← acquisition_tag cfg
  let s5 := pe_direction_tag cfg
  let s6 ← run_tag cfg
  .ok (SixTags.mk s1 s2 s3 s4 s5 s6)

/-- `Bidifyer.check_label` (lines 214-228): returns `True` when
`str(label).isalnum()`, otherwise raises `BidsMalformedLabelError`.  Note
that Python's `isalnum` is `False` on the empty string, so the bare check
raises on `""` as well. -/
def check_label (label : PyScalar) : Except PyError Bool :=
  if pyIsAlnum (pyStr label) then .ok true else .error .malformedLabel

/-- `self.config.values()` in dictionary insertion order. -/
def configValues (cfg : BidsConfig) : List PyScalar :=
  [cfg.subject_number, cfg.session_number, cfg.subject_label, cfg.session_label,
   cfg.task_label, cfg.acquisition_label, cfg.acquisition_number, cfg.pe_direction_label,
   cfg.run_index]

/-- The validation loop at lines 209-211: every value different from `""` is
passed to `check_label`. -/
def checkLabels : List PyScalar → Except PyError Unit
  | [] => .ok ()
  | v :: rest =>
    if !pyEqEmpty v then do
      let _ ← check_label v
      checkLabels rest
    else checkLabels rest

/-- The constructed `Bidifyer` object: configuration, precision, and the
`__tags` tuple captured at construction time. -/
structure Bidifyer where
  config : BidsConfig
  format_precision : Nat
  tags : SixTags
deriving DecidableEq, Repr

/-- `Bidifyer.__init__` (lines 179-211): read the nine keys with defaults,
evaluate the six tag properties into `self.__tags`, then validate every
non-empty configured value with `check_label`. -/
def Bidifyer_init (bids_config : PyConfigArg) (format_precision : Nat) :
    Except PyError Bidifyer := do
  let v1 ← pyGet bids_config BidsConfigDict.subject_number (.int 1)
  let v2 ← pyGet bids_config BidsConfigDict.session_number (.str "")
  let v3 ← pyGet bids_config BidsConfigDict.subject_label (.str "")
  let v4 ← pyGet bids_config BidsConfigDict.session_label (.str "")
  let v5 ← pyGet bids_config BidsConfigDict.task_label (.str "")
  let v6 ← pyGet bids_config BidsConfigDict.acquisition_label (.str "")
  let v7 ← pyGet bids_config BidsConfigDict.acquisition_number (.str "")
  let v8 ← pyGet bids_config BidsConfigDict.pe_direction_label (.str "")
  let v9 ← pyGet bids_config BidsConfigDict.run_index (.str "")
  let cfg := BidsConfig.mk v1 v2 v3 v4 v5 v6 v7 v8 v9
  let tags ← evalTags cfg format_precision
  let _ ← checkLabels (configValues cfg)
  .ok (Bidifyer.mk cfg format_precision tags)

/-- The configuration `Bidifyer.__init__` derives from a dictionary argument
(the nine `get` calls with their defaults). -/
def configOfDict (d : BidsConfigDict) : BidsConfig :=
  BidsConfig.mk (d.subject_number.getD (.int 1)) (d.session_number.getD (.str ""))
    (d.subject_label.getD (.str "")) (d.session_label.getD (.str ""))
    (d.task_label.getD (.str "")) (d.acquisition_label.getD (.str ""))
    (d.acquisition_number.getD (.str "")) (d.pe_direction_label.getD (.str ""))
    (d.run_index.getD (.str ""))

/-- Plain concatenation of a list of strings; `functools.reduce` with string
`+` computes the same string (string concatenation is associative). -/
def strConcat : List String → String
  | [] => ""
  | s :: rest => s ++ strConcat rest

/-- `Bidifyer.tag` (lines 352-364) as a function of the captured `__tags`
tuple: append `"_"` to every non-empty sub-tag, concatenate, and drop the
final character (`[:-1]`). -/
def tagOfParts (parts : List String) : String :=
  pyDropLast (strConcat (parts.map (fun x => if x = "" then "" else x ++ "_")))

/-- The `tag` property of a constructed `Bidifyer`. -/
def Bidifyer.tag (b : Bidifyer) : String :=
  tagOfParts b.tags.toList

/-- Reference form of an underscore-joined string list: the parts separated
by single underscores, nothing before the first or after the last part. -/
def underscoreJoin : List String → String
  | [] => ""
  | [s] => s
  | s :: t :: rest => s ++ "_" ++ underscoreJoin (t :: rest)

/-- `FunctionalBidifyer(bids_config)` (lines 381-389).  The constructor runs
`super().__init__(self, *args, **kwargs)`, so the partially-built instance —
not the caller's dictionary — arrives as the base `bids_config` parameter
(the dictionary lands in the unread `format_precision` slot, modelled by the
irrelevant literal `2`, which is also the value used by a no-argument call).
The base initializer therefore raises `AttributeError` at its first
`bids_config.get(...)`, before the task-label check below can run. -/
def FunctionalBidifyer_new (bids_config : BidsConfigDict) : Except PyError Bidifyer := do
  let _ := bids_config
  let b ← Bidifyer_init .obj 2
  if pyEqEmpty b.config.task_label then .error .inconsistentNaming
  else .ok b

/-! ## Embedding of `dac2bids.py` -/

/-- `mag_or_phase` (dac2bids.py lines 41-52): `'M' in tag` wins over
`'P' in tag`; neither gives `'unknown'`. -/
def mag_or_phase (dicomImgTypeTag : String) : String :=
  if pyInStr "M" dicomImgTypeTag then "magnitude"
  else if pyInStr "P" dicomImgTypeTag then "phase"
  else "unknown"

/-- One line of the embedded Siemens protocol text against the regex
`'^' + pattern + '\t = \t(.*)\n'`: the captured group is the remainder of the
line after the literal `pattern + "\t = \t"` prefix (lines are modelled
without their trailing newline). -/
def xProtLineMatch (pattern l : String) : Option String :=
  if (pattern ++ "\t = \t").data.isPrefixOf l.data then
    some ⟨l.data.drop (pattern ++ "\t = \t").data.length⟩
  else none

/-- `parse_from_x_protocol` (lines 67-80): scan the file's lines for the
first match and return `int(group(1))`; with no match the Python function
falls off the end and returns `None`.  A matching line whose value is not an
integer would make `int` raise `ValueError`. -/
def parse_from_x_protocol (pattern : String) : List String → Except PyError (Option Int)
  | [] => .ok none
  | l :: rest =>
    match xProtLineMatch pattern l with
    | some v =>
      match pyInt v with
      | some n => .ok (some n)
      | none => .error .valueError
    | none => parse_from_x_protocol pattern rest

/-- `is_incomplete_acquisition`'s comparison (line 100), with the parsed
`lRepetitions` value as the collaborator hands it over: `nrep > len(listdir)
- 1` under Python 2 ordering, where `None` compares below every integer. -/
def is_incomplete_acquisition (nrep : Option Int) (nfiles : Nat) : Bool :=
  py2IntGtOpt nrep ((nfiles : Int) - 1)

/-- `is_incomplete_acquisition` (lines 91-100) end to end: parse
`lRepetitions` out of the representative file's protocol text, then compare
against the folder's file count minus one. -/
def is_incomplete_acquisition_of_file (lines : List String) (nfiles : Nat) :
    Except PyError Bool := do
  let nrep ← parse_from_x_protocol "lRepetitions" lines
  .ok (is_incomplete_acquisition nrep nfiles)

/-- The values of the loop-carried locals `outfolder` and `experiment` in
`parse_protocols` at the top of an iteration: `none` models a Python local
that has never been assigned (reading it raises `NameError`). -/
structure LoopState where
  outfolder : Option String
  experiment : Option String
deriving DecidableEq, Repr

/-- Reading a possibly-unassigned Python local. -/
def pyLoad : Option String → Except PyError String
  | none => .error .nameError
  | some s => .ok s

/-- The classification chain of `parse_protocols` (lines 155-184), returning
`(outfolder, experiment, acq)`.  The `GR`-and-not-`IR` branch has no default
arm: an unrecognized sequence name leaves `outfolder`/`experiment` at the
values carried over from the previous loop iteration (or unassigned, raising
`NameError`, on the first iteration); the trailing
`elif outfolder not in {...}` is never reached from that branch. -/
def parse_protocols_branch (st : LoopState) (seq desc seqname : String)
    (nEchoesXProt : Option Int) : Except PyError (String × String × String) :=
  if seq = "EP" then
    let experiment :=
      if pyInStr "Resting" desc then "task-rest"
      else if pyInStr "Task" desc then "task-stroop"
      else "unknown"
    let acq := if py2IntGtOpt nEchoesXProt 1 then "acq-mbme" else "acq-mb"
    .ok ("func", experiment, acq)
  else if pyInStr "GR" seq && !pyInStr "IR" seq then
    if seqname = "*fm2d2r" then .ok ("fmap", "", "")
    else if seqname = "*fl3d11r" then .ok ("anat", "T2starw", "")
    else do
      let o ← pyLoad st.outfolder
      let e ← pyLoad st.experiment
      .ok (o, e, "")
  else if pyInStr "IR" seq then .ok ("anat", "T1w", "")
  else do
    let o ← pyLoad st.outfolder
    if o = "anat" || o = "func" || o = "fmap" then do
      let e ← pyLoad st.experiment
      .ok (o, e, "")
    else .ok ("unknown", "unknown", "")

/-- The per-folder classification record `parse_protocols` stores into its
result dictionary. -/
structure FolderRec where
  imgtype : String
  outfolder : String
  experiment : String
  echo : Int
  acq : String
deriving DecidableEq, Repr

/-- What reading the representative DICOM of a folder yields: the full
attribute set, only `ImageType` (the physiological special case), a file
with neither (skipped), or not a DICOM at all (skipped). -/
inductive DicomRead where
  | full (seq : String) (echo : Int) (desc imgtype seqname : String)
  | physioOnly (imgtype : String)
  | weird
  | notDicom
deriving DecidableEq, Repr

/-- One iteration of the `parse_protocols` loop (lines 119-194): returns the
record stored for the folder (`none` when the folder is skipped by
`continue`) and the loop-carried locals for the next iteration.  In the
physiological case the handler assigns `outfolder = seq = experiment =
'physio'` and `echo = 0` before the chain runs; `desc`/`seqname` are not
read on that path. -/
def parse_protocols_step (st : LoopState) (r : DicomRead) (nEchoesXProt : Option Int) :
    Except PyError (Option FolderRec × LoopState) :=
  match r with
  | .notDicom => .ok (none, st)
  | .weird => .ok (none, st)
  | .full seq echo desc imgtype seqname => do
    let (o, e, a) ← parse_protocols_branch st seq desc seqname nEchoesXProt
    .ok (some (FolderRec.mk (mag_or_phase imgtype) o e echo a),
      LoopState.mk (some o) (some e))
  | .physioOnly imgtype => do
    let (o, e, a) ← parse_protocols_branch (LoopState.mk (some "physio") (some "physio"))
      "physio" "" "" nEchoesXProt
    .ok (some (FolderRec.mk (mag_or_phase imgtype) o e 0 a),
      LoopState.mk (some o) (some e))

/-- A classified leaf folder as `create_yaml` consumes it: its name, the
classification record, the parsed `lRepetitions` value of its representative
file, and its file count. -/
structure ParsedFolder where
  protocol : String
  config : FolderRec
  lRepetitions : Option Int
  nfiles : Nat
deriving DecidableEq, Repr

/-- One manifest entry of the `Files` list. -/
structure OutRec where
  in_dir : String
  out_dir : String
  filename : String
deriving DecidableEq, Repr

/-- `os.path.join` for a relative second component.  (`create_yaml` then
applies `os.path.abspath`, a filesystem collaborator outside the embedded
core; the records here hold the pre-`abspath` paths.) -/
def pathJoin (a b : String) : String :=
  a ++ "/" ++ b

/-- The filename assembly of `create_yaml` (lines 230-257): start from
`sub_ses` and extend according to the folder's category; `echonum` is
`'%02d' % echo`. -/
def createYamlFilename (sub ses : String) (cfg : FolderRec) (skipfmap : Bool) : String :=
  let echonum := pyFormatD 2 cfg.echo
  let f := sub ++ "_" ++ ses
  let f := if cfg.outfolder = "func" then
      f ++ "_" ++ cfg.experiment ++ "_" ++ cfg.acq ++ echonum ++ "_bold" ++ "_" ++
        cfg.imgtype ++ echonum
    else f
  let f := if cfg.outfolder = "anat" then
      f ++ "_" ++ cfg.experiment ++
        (if cfg.experiment = "T2starw" then "_" ++ cfg.imgtype ++ echonum else "")
    else f
  let f := if cfg.outfolder = "fmap" then
      (if skipfmap then f else f ++ "_" ++ cfg.imgtype ++ echonum)
    else f
  f

/-- The body of the `create_yaml` loop for one folder (lines 225-263):
`continue` on an incomplete acquisition, build the paths and filename, and
append a record only when `outfolder` is not `'unknown'` (the literal is
interned, so Python's `is not` behaves as inequality here). -/
def folderRecord (inputfolder outputfolder sub ses : String) (skipfmap : Bool)
    (f : ParsedFolder) : Option OutRec :=
  if is_incomplete_acquisition f.lRepetitions f.nfiles then none
  else
    let inputdirectory := pathJoin inputfolder f.protocol
    let outputdirectory := pathJoin (pathJoin (pathJoin outputfolder sub) ses) f.config.outfolder
    let filename := createYamlFilename sub ses f.config skipfmap
    if f.config.outfolder = "unknown" then none
    else some (OutRec.mk inputdirectory outputdirectory filename)

/-- The `create_yaml` loop over the classified folders, in dictionary
(insertion) order. -/
def createYamlLoop (inputfolder outputfolder sub ses : String) (skipfmap : Bool) :
    List ParsedFolder → List OutRec
  | [] => []
  | f :: rest =>
    match folderRecord inputfolder outputfolder sub ses skipfmap f with
    | some r => r :: createYamlLoop inputfolder outputfolder sub ses skipfmap rest
    | none => createYamlLoop inputfolder outputfolder sub ses skipfmap rest

/-- The `Files` list `create_yaml` (lines 210-265) produces:
`sub`/`ses` are `'sub-' + '%02d' % subnum` and `'ses-' + '%02d' % sesnum`. -/
def create_yaml_files (inputfolder outputfolder : String) (subnum sesnum : Int)
    (skipfmap : Bool) (folders : List ParsedFolder) : List OutRec :=
  createYamlLoop inputfolder outputfolder ("sub-" ++ pyFormatD 2 subnum)
    ("ses-" ++ pyFormatD 2 sesnum) skipfmap folders

/-! ## Concrete values used when instantiating the theorems -/

/-- A string that contains no underscore (so it can neither create nor
extend a separator in a composed tag). -/
def noUnderscore (s : String) : Prop :=
  '_' ∉ s.data

instance (s : String) : Decidable (noUnderscore s) := by
  unfold noUnderscore
  infer_instance

/-- The fully populated configuration of the specification's precision-3
scenario, written with the keys `Bidifyer.__init__` actually reads. -/
def fullScenarioDict : BidsConfigDict :=
  BidsConfigDict.mk (some (.int 1)) (some (.int 3)) (some (.str "sublabel"))
    (some (.str "seslabel")) (some (.str "tasklabel")) (some (.str "acqlabel"))
    (some (.int 5)) (some (.str "dirlabel")) (some (.int 8))

/-- The `Bidifyer` built from `fullScenarioDict` at precision 3. -/
def fullScenarioBidifyer : Bidifyer :=
  Bidifyer.mk
    (BidsConfig.mk (.int 1) (.int 3) (.str "sublabel") (.str "seslabel") (.str "tasklabel")
      (.str "acqlabel") (.int 5) (.str "dirlabel") (.int 8))
    3
    (SixTags.mk "sub-sublabel001" "ses-seslabel003" "task-tasklabel" "acq-acqlabel05"
      "dir-dirlabel" "run-08")

/-- The `Bidifyer` built from an empty configuration dictionary at the
default precision 2 (`Bidifyer()` in tests.py, whose tag is `"sub-01"`). -/
def defaultBidifyer : Bidifyer :=
  Bidifyer.mk
    (BidsConfig.mk (.int 1) (.str "") (.str "") (.str "") (.str "") (.str "") (.str "")
      (.str "") (.str ""))
    2
    (SixTags.mk "sub-01" "" "" "" "" "")

/-- A configuration whose direction label carries a path separator
(tests.py's malformed-label case). -/
def malformedDict : BidsConfigDict :=
  BidsConfigDict.mk none none none none none none none (some (.str "reverse/")) none

/-- The tag tuple `__init__` evaluates for `malformedDict` before the label
validation loop rejects the configuration. -/
def malformedDictTags : SixTags :=
  SixTags.mk "sub-01" "" "" "" "dir-reverse/" ""

/-- The record `parse_protocols` stores for a physiological folder (after
the trailing catch-all branch has overwritten `outfolder`). -/
def physioFolderRec : FolderRec :=
  FolderRec.mk "magnitude" "unknown" "unknown" 0 ""

/-- A complete physiological folder (5 files, 0 expected repetitions) as
`create_yaml` sees it. -/
def physioParsedFolder : ParsedFolder :=
  ParsedFolder.mk "physio" physioFolderRec (some 0) 5

/-- A functional folder whose protocol promises 20 repetitions while the
folder holds only 15 files. -/
def truncatedFolder : ParsedFolder :=
  ParsedFolder.mk "ep2d_bold" (FolderRec.mk "magnitude" "func" "task-rest" 1 "acq-mb")
    (some 20) 15

/-- A complete functional folder (3 expected repetitions, 5 files). -/
def completeFuncFolder : ParsedFolder :=
  ParsedFolder.mk "ep2d_bold" (FolderRec.mk "magnitude" "func" "task-rest" 1 "acq-mb")
    (some 3) 5

/-! ## Helper lemmas: strings and decimal rendering -/

theorem strConcat_map_filter (parts : List String) :
    strConcat (parts.map (fun x => if x = "" then "" else x ++ "_")) =
      strConcat ((parts.filter (fun s => s ≠ "")).map (fun x => x ++ "_")) := by
  induction parts with
  | nil => rfl
  | cons a t ih =>
    by_cases h : a = ""
    · subst h
      simpa [strConcat] using ih
    · simp [strConcat, h, ih]

theorem pyDropLast_append_ne (a X : String) (h : X.data ≠ []) :
    pyDropLast (a ++ X) = a ++ pyDropLast X := by
  apply String.ext
  simp [pyDropLast]
  exact List.dropLast_append_of_ne_nil a.data h

theorem pyDropLast_trail :
    ∀ l : List String, pyDropLast (strConcat (l.map (fun x => x ++ "_"))) = underscoreJoin l
  | [] => rfl
  | [a] => by
    apply String.ext
    simp [pyDropLast, strConcat, underscoreJoin]
  | a :: b :: t => by
    have hX : (strConcat ((b :: t).map (fun x => x ++ "_"))).data ≠ [] := by
      simp [strConcat]
    calc pyDropLast (strConcat ((a :: b :: t).map (fun x => x ++ "_")))
        = pyDropLast ((a ++ "_") ++ strConcat ((b :: t).map (fun x => x ++ "_"))) := rfl
      _ = (a ++ "_") ++ pyDropLast (strConcat ((b :: t).map (fun x => x ++ "_"))) :=
          pyDropLast_append_ne _ _ hX
      _ = (a ++ "_") ++ underscoreJoin (b :: t) := by rw [pyDropLast_trail (b :: t)]
      _ = underscoreJoin (a :: b :: t) := rfl

theorem tagOfParts_eq_underscoreJoin (parts : List String) :
    tagOfParts parts = underscoreJoin (parts.filter (fun s => s ≠ "")) := by
  unfold tagOfParts
  rw [strConcat_map_filter, pyDropLast_trail]

theorem natDecimalAux_isDigit :
    ∀ fuel n, ∀ c ∈ natDecimalAux fuel n, c.isDigit = true := by
  intro fuel
  induction fuel with
  | zero => intro n c hc; simp [natDecimalAux] at hc
  | succ f ih =>
    intro n c hc
    unfold natDecimalAux at hc
    by_cases h : n = 0
    · simp [h] at hc
    · simp only [if_neg h, List.mem_append, List.mem_singleton] at hc
      rcases hc with hc | hc
      · exact ih _ _ hc
      · subst hc
        have h10 : n % 10 < 10 := Nat.mod_lt _ (by decide)
        have hall : ∀ m, m < 10 → (Nat.digitChar m).isDigit = true := by decide
        exact hall _ h10

theorem decodeDecimal_append_digit (l : List Char) (c : Char) :
    decodeDecimal (l ++ [c]) = 10 * decodeDecimal l + (c.toNat - 48) := by
  simp [decodeDecimal, List.foldl_append]

theorem decodeDecimal_natDecimalAux :
    ∀ fuel n, n ≤ fuel → decodeDecimal (natDecimalAux fuel n) = n := by
  intro fuel
  induction fuel with
  | zero =>
    intro n h
    have : n = 0 := Nat.le_zero.mp h
    subst this
    rfl
  | succ f ih =>
    intro n h
    unfold natDecimalAux
    by_cases h0 : n = 0
    · subst h0; rfl
    · rw [if_neg h0, decodeDecimal_append_digit]
      have hdiv : n / 10 ≤ f := by
        have : n / 10 < n := Nat.div_lt_self (Nat.pos_of_ne_zero h0) (by decide)
        omega
      rw [ih _ hdiv]
      have h10 : n % 10 < 10 := Nat.mod_lt _ (by decide)
      have hchar : ∀ m, m < 10 → (Nat.digitChar m).toNat - 48 = m := by decide
      rw [hchar _ h10]
      omega

theorem decodeDecimal_natDecimal (n : Nat) : decodeDecimal (natDecimal n).data = n := by
  unfold natDecimal
  by_cases h : n = 0
  · subst h; rfl
  · rw [if_neg h]
    exact decodeDecimal_natDecimalAux n n le_rfl

theorem decodeDecimal_replicate_zero (k : Nat) (l : List Char) :
    decodeDecimal (List.replicate k '0' ++ l) = decodeDecimal l := by
  induction k with
  | zero => rfl
  | succ k ih =>
    rw [List.replicate_succ, List.cons_append]
    show decodeDecimal (List.replicate k '0' ++ l) = decodeDecimal l
    exact ih

theorem natDecimal_ne_nil (n : Nat) : (natDecimal n).data ≠ [] := by
  unfold natDecimal
  by_cases h : n = 0
  · simp [h]
  · rw [if_neg h]
    show natDecimalAux n n ≠ []
    obtain ⟨f, rfl⟩ : ∃ f, n = f + 1 := ⟨n - 1, by omega⟩
    unfold natDecimalAux
    rw [if_neg h]
    simp

theorem zfill_data (w : Nat) (s : String) :
    (zfill w s).data = List.replicate (w - s.length) '0' ++ s.data := rfl

theorem zfill_length (w : Nat) (s : String) :
    (zfill w s).length = (w - s.length) + s.length := by
  simp [zfill]

theorem pyFormatD_length (w : Nat) (n : Int) : w ≤ (pyFormatD w n).length := by
  unfold pyFormatD
  split
  · rw [String.length_append, zfill_length]
    have h1 : ("-" : String).length = 1 := rfl
    omega
  · rw [zfill_length]
    omega

/-! ## Helper lemmas: underscore-freeness of the sub-tags -/

theorem noUnderscore_append (a b : String) (ha : noUnderscore a) (hb : noUnderscore b) :
    noUnderscore (a ++ b) := by
  simp only [noUnderscore, String.data_append, List.mem_append] at *
  tauto

theorem noUnderscore_natDecimal (n : Nat) : noUnderscore (natDecimal n) := by
  unfold noUnderscore natDecimal
  by_cases h : n = 0
  · simp [h]
  · rw [if_neg h]
    intro hmem
    have := natDecimalAux_isDigit n n '_' hmem
    simp at this

theorem noUnderscore_pyFormatD (w : Nat) (n : Int) : noUnderscore (pyFormatD w n) := by
  have hz : ∀ k s, noUnderscore s → noUnderscore (zfill k s) := by
    intro k s hs
    simp only [noUnderscore, zfill_data, List.mem_append, List.mem_replicate] at *
    rintro (⟨-, h⟩ | h)
    · exact absurd h.symm (by decide)
    · exact hs h
  unfold pyFormatD
  split
  · exact noUnderscore_append _ _ (by decide) (hz _ _ (noUnderscore_natDecimal _))
  · exact hz _ _ (noUnderscore_natDecimal _)

theorem noUnderscore_of_alnum (s : String) (h : pyIsAlnum s = true) : noUnderscore s := by
  simp only [pyIsAlnum, Bool.and_eq_true, List.all_eq_true] at h
  intro hmem
  have := h.2 '_' hmem
  simp at this

theorem pyStr_of_pyEqEmpty (v : PyScalar) (h : pyEqEmpty v = true) : pyStr v = "" := by
  cases v with
  | int n => simp [pyEqEmpty] at h
  | str s =>
    simp only [pyEqEmpty, decide_eq_true_eq] at h
    simp [pyStr, h]

theorem noUnderscore_pyStr (v : PyScalar)
    (h : pyEqEmpty v = true ∨ pyIsAlnum (pyStr v) = true) : noUnderscore (pyStr v) := by
  rcases h with h | h
  · rw [pyStr_of_pyEqEmpty v h]
    intro hmem
    simp at hmem
  · exact noUnderscore_of_alnum _ h

/-! ## Helper lemmas: the label-validation loop -/

@[simp] theorem exceptBind_ok {ε α β : Type} (a : α) (f : α → Except ε β) :
    (Except.ok a : Except ε α) >>= f = f a := rfl

@[simp] theorem exceptBind_err {ε α β : Type} (e : ε) (f : α → Except ε β) :
    (Except.error e : Except ε α) >>= f = Except.error e := rfl

theorem checkLabels_ok_mem :
    ∀ l, checkLabels l = .ok () → ∀ v ∈ l, pyEqEmpty v = true ∨ pyIsAlnum (pyStr v) = true := by
  intro l
  induction l with
  | nil => intro _ v hv; simp at hv
  | cons w t ih =>
    intro h v hv
    by_cases he : pyEqEmpty w
    · have h2 : checkLabels t = .ok () := by
        unfold checkLabels at h
        simpa [he] using h
      rcases List.mem_cons.mp hv with rfl | hv
      · exact Or.inl he
      · exact ih h2 v hv
    · rw [Bool.not_eq_true] at he
      by_cases ha : pyIsAlnum (pyStr w)
      · have h2 : checkLabels t = .ok () := by
          unfold checkLabels at h
          simpa [he, ha, check_label, Except.bind] using h
        rcases List.mem_cons.mp hv with rfl | hv
        · exact Or.inr ha
        · exact ih h2 v hv
      · rw [Bool.not_eq_true] at ha
        exfalso
        unfold checkLabels at h
        simp [he, ha, check_label, Except.bind] at h

theorem checkLabels_error_iff :
    ∀ l, checkLabels l = .error .malformedLabel ↔
      ∃ v ∈ l, pyEqEmpty v = false ∧ pyIsAlnum (pyStr v) = false := by
  intro l
  induction l with
  | nil => simp [checkLabels]
  | cons w t ih =>
    by_cases he : pyEqEmpty w
    · constructor
      · intro h
        have h2 : checkLabels t = .error .malformedLabel := by
          unfold checkLabels at h
          simpa [he] using h
        obtain ⟨v, hv, hprop⟩ := ih.mp h2
        exact ⟨v, List.mem_cons_of_mem _ hv, hprop⟩
      · rintro ⟨v, hv, hprop⟩
        have h2 : ∃ v ∈ t, pyEqEmpty v = false ∧ pyIsAlnum (pyStr v) = false := by
          rcases List.mem_cons.mp hv with rfl | hv
          · rw [he] at hprop
            exact absurd hprop.1 (by simp)
          · exact ⟨v, hv, hprop⟩
        have h3 := ih.mpr h2
        unfold checkLabels
        simpa [he] using h3
    · rw [Bool.not_eq_true] at he
      by_cases ha : pyIsAlnum (pyStr w)
      · constructor
        · intro h
          have h2 : checkLabels t = .error .malformedLabel := by
            unfold checkLabels at h
            simpa [he, ha, check_label, Except.bind] using h
          obtain ⟨v, hv, hprop⟩ := ih.mp h2
          exact ⟨v, List.mem_cons_of_mem _ hv, hprop⟩
        · rintro ⟨v, hv, hprop⟩
          have h2 : ∃ v ∈ t, pyEqEmpty v = false ∧ pyIsAlnum (pyStr v) = false := by
            rcases List.mem_cons.mp hv with rfl | hv
            · rw [ha] at hprop
              exact absurd hprop.2 (by simp)
            · exact ⟨v, hv, hprop⟩
          have h3 := ih.mpr h2
          unfold checkLabels
          simpa [he, ha, check_label, Except.bind] using h3
      · rw [Bool.not_eq_true] at ha
        constructor
        · intro _
          exact ⟨w, List.mem_cons_self _ _, he, ha⟩
        · intro _
          unfold checkLabels
          simp [he, ha, check_label, Except.bind]

/-! ## Helper lemmas: inverting the constructor -/

theorem evalTags_ok_parts (cfg : BidsConfig) (p : Nat) (t : SixTags)
    (h : evalTags cfg p = .ok t) :
    subject_tag cfg p = .ok t.subjectTag ∧ session_tag cfg p = .ok t.sessionTag ∧
    task_tag cfg = t.taskTag ∧ acquisition_tag cfg = .ok t.acquisitionTag ∧
    pe_direction_tag cfg = t.peDirectionTag ∧ run_tag cfg = .ok t.runTag := by
  unfold evalTags at h
  cases h1 : subject_tag cfg p with
  | error e => rw [h1] at h; simp at h
  | ok s1 =>
    rw [h1] at h
    cases h2 : session_tag cfg p with
    | error e => rw [h2] at h; simp at h
    | ok s2 =>
      rw [h2] at h
      cases h3 : acquisition_tag cfg with
      | error e => rw [h3] at h; simp at h
      | ok s4 =>
        rw [h3] at h
        cases h4 : run_tag cfg with
        | error e => rw [h4] at h; simp at h
        | ok s6 =>
          rw [h4] at h
          simp only [exceptBind_ok, Except.ok.injEq] at h
          subst h
          exact ⟨rfl, rfl, rfl, rfl, rfl, rfl⟩

theorem Bidifyer_init_dict (d : BidsConfigDict) (p : Nat) :
    Bidifyer_init (.dict d) p =
      (evalTags (configOfDict d) p).bind (fun tags =>
        (checkLabels (configValues (configOfDict d))).bind (fun _ =>
          .ok (Bidifyer.mk (configOfDict d) p tags))) := rfl

theorem Bidifyer_init_dict_ok (d : BidsConfigDict) (p : Nat) (b : Bidifyer)
    (h : Bidifyer_init (.dict d) p = .ok b) :
    b.config = configOfDict d ∧ b.format_precision = p ∧
    evalTags (configOfDict d) p = .ok b.tags ∧
    checkLabels (configValues (configOfDict d)) = .ok () := by
  rw [Bidifyer_init_dict] at h
  cases h1 : evalTags (configOfDict d) p with
  | error e => rw [h1] at h; simp [Except.bind] at h
  | ok tags =>
    rw [h1] at h
    cases h2 : checkLabels (configValues (configOfDict d)) with
    | error e => rw [h2] at h; simp [Except.bind] at h
    | ok u =>
      rw [h2] at h
      simp only [Except.bind, Except.ok.injEq] at h
      subst h
      exact ⟨rfl, rfl, rfl, rfl⟩

/-! ## Helper lemmas: the individual tag accessors -/

theorem subject_tag_int (cfg : BidsConfig) (p : Nat) (n : Int)
    (h : cfg.subject_number = .int n) :
    subject_tag cfg p = .ok ("sub-" ++ pyStr cfg.subject_label ++ pyFormatD p n) := by
  unfold subject_tag
  rw [h]
  rfl

theorem session_tag_int (cfg : BidsConfig) (p : Nat) (n : Int)
    (h : cfg.session_number = .int n) :
    session_tag cfg p = .ok ("ses-" ++ pyStr cfg.session_label ++ pyFormatD p n) := by
  unfold session_tag
  rw [h]
  simp [pyEqEmpty, formatter]

theorem acquisition_tag_int (cfg : BidsConfig) (n : Int)
    (h : cfg.acquisition_number = .int n) :
    acquisition_tag cfg = .ok ("acq-" ++ pyStr cfg.acquisition_label ++ pyFormatD 2 n) := by
  unfold acquisition_tag
  rw [h]
  simp [pyEqEmpty, formatter]

theorem run_tag_int (cfg : BidsConfig) (n : Int) (h : cfg.run_index = .int n) :
    run_tag cfg = .ok ("run-" ++ pyFormatD 2 n) := by
  unfold run_tag
  rw [h]
  rfl

theorem subject_tag_noU (cfg : BidsConfig) (p : Nat) (s : String)
    (h : subject_tag cfg p = .ok s) (hl : noUnderscore (pyStr cfg.subject_label)) :
    noUnderscore s := by
  unfold subject_tag at h
  cases hn : cfg.subject_number with
  | str v => rw [hn] at h; simp [formatter] at h
  | int n =>
    rw [hn] at h
    simp only [formatter, exceptBind_ok, Except.ok.injEq] at h
    subst h
    exact noUnderscore_append _ _ (noUnderscore_append _ _ (by decide) hl)
      (noUnderscore_pyFormatD _ _)

theorem session_tag_noU (cfg : BidsConfig) (p : Nat) (s : String)
    (h : session_tag cfg p = .ok s) (hl : noUnderscore (pyStr cfg.session_label)) :
    noUnderscore s := by
  unfold session_tag at h
  split at h
  · simp only [Except.ok.injEq] at h
    subst h
    intro hc
    simp at hc
  · by_cases hn : pyEqEmpty cfg.session_number
    · rw [hn] at h
      simp only [Bool.not_true, Bool.false_eq_true, if_false, exceptBind_ok,
        Except.ok.injEq] at h
      subst h
      exact noUnderscore_append _ _ (noUnderscore_append _ _ (by decide) hl)
        (by intro hc; simp at hc)
    · rw [Bool.not_eq_true] at hn
      rw [hn] at h
      cases hv : cfg.session_number with
      | str v =>
        rw [hv] at h
        simp [formatter] at h
      | int n =>
        rw [hv] at h
        simp only [Bool.not_false, if_true, formatter, exceptBind_ok, Except.ok.injEq] at h
        subst h
        exact noUnderscore_append _ _ (noUnderscore_append _ _ (by decide) hl)
          (noUnderscore_pyFormatD _ _)

theorem task_tag_noU (cfg : BidsConfig) (hl : noUnderscore (pyStr cfg.task_label)) :
    noUnderscore (task_tag cfg) := by
  unfold task_tag
  split
  · intro hc; simp at hc
  · exact noUnderscore_append _ _ (by decide) hl

theorem acquisition_tag_noU (cfg : BidsConfig) (s : String)
    (h : acquisition_tag cfg = .ok s) (hl : noUnderscore (pyStr cfg.acquisition_label)) :
    noUnderscore s := by
  unfold acquisition_tag at h
  split at h
  · simp only [Except.ok.injEq] at h
    subst h
    intro hc
    simp at hc
  · by_cases hn : pyEqEmpty cfg.acquisition_number
    · rw [hn] at h
      simp only [Bool.not_true, Bool.false_eq_true, if_false, exceptBind_ok,
        Except.ok.injEq] at h
      subst h
      exact noUnderscore_append _ _ (noUnderscore_append _ _ (by decide) hl)
        (by intro hc; simp at hc)
    · rw [Bool.not_eq_true] at hn
      rw [hn] at h
      cases hv : cfg.acquisition_number with
      | str v =>
        rw [hv] at h
        simp [formatter] at h
      | int n =>
        rw [hv] at h
        simp only [Bool.not_false, if_true, formatter, exceptBind_ok, Except.ok.injEq] at h
        subst h
        exact noUnderscore_append _ _ (noUnderscore_append _ _ (by decide) hl)
          (noUnderscore_pyFormatD _ _)

theorem pe_direction_tag_noU (cfg : BidsConfig)
    (hl : noUnderscore (pyStr cfg.pe_direction_label)) :
    noUnderscore (pe_direction_tag cfg) := by
  unfold pe_direction_tag
  split
  · intro hc; simp at hc
  · exact noUnderscore_append _ _ (by decide) hl

theorem run_tag_noU (cfg : BidsConfig) (s : String) (h : run_tag cfg = .ok s) :
    noUnderscore s := by
  unfold run_tag at h
  split at h
  · simp only [Except.ok.injEq] at h
    subst h
    intro hc
    simp at hc
  · cases hv : cfg.run_index with
    | str v =>
      rw [hv] at h
      simp [formatter] at h
    | int n =>
      rw [hv] at h
      simp only [formatter, exceptBind_ok, Except.ok.injEq] at h
      subst h
      exact noUnderscore_append _ _ (by decide) (noUnderscore_pyFormatD _ _)

/-! ## Helper lemmas: the manifest loop and substring containment -/

theorem createYamlLoop_eq_filterMap (iF oF sub ses : String) (skip : Bool) :
    ∀ fs : List ParsedFolder,
      createYamlLoop iF oF sub ses skip fs = fs.filterMap (folderRecord iF oF sub ses skip) := by
  intro fs
  induction fs with
  | nil => rfl
  | cons f t ih =>
    unfold createYamlLoop
    cases h : folderRecord iF oF sub ses skip f <;>
      simp [List.filterMap_cons, h, ih]

theorem listInfix_singleton (c : Char) :
    ∀ l : List Char, listInfix [c] l = true ↔ c ∈ l := by
  intro l
  induction l with
  | nil => simp [listInfix]
  | cons a t ih =>
    unfold listInfix
    simp only [List.isPrefixOf, Bool.or_eq_true, List.mem_cons]
    constructor
    · rintro (h | h)
      · simp only [Bool.and_eq_true, beq_iff_eq] at h
        exact Or.inl h.1
      · exact Or.inr (ih.mp h)
    · rintro (rfl | h)
      · refine Or.inl ?_
        simp [List.isPrefixOf]
      · exact Or.inr (ih.mpr h)

theorem pyInStr_singleton (c : Char) (s : String) :
    pyInStr (String.mk [c]) s = true ↔ c ∈ s.data := by
  unfold pyInStr
  exact listInfix_singleton c s.data

/-! ## Claim theorems -/

/-- C1: for every naming configuration the `Bidifyer` constructor accepts,
the combined `tag` accessor returns the six per-field sub-tags (in the fixed
order subject, session, task, acquisition, phase-encoding-direction, run —
that is the order of the captured tuple) joined by a single underscore
between the non-empty sub-tags, with empty sub-tags contributing nothing;
since every sub-tag is itself underscore-free, the result has no leading,
trailing, or doubled separator. -/
theorem tag_is_underscore_join_of_nonempty_subtags (d : BidsConfigDict) (p : Nat)
    (b : Bidifyer) (h : Bidifyer_init (.dict d) p = .ok b) :
    b.tag = underscoreJoin (b.tags.toList.filter (fun s => s ≠ "")) ∧
    evalTags b.config p = .ok b.tags ∧
    ∀ s ∈ b.tags.toList, noUnderscore s := by
  obtain ⟨hcfg, hp, htags, hcheck⟩ := Bidifyer_init_dict_ok d p b h
  refine ⟨tagOfParts_eq_underscoreJoin _, by rw [hcfg]; exact htags, ?_⟩
  obtain ⟨h1, h2, h3, h4, h5, h6⟩ := evalTags_ok_parts _ _ _ htags
  have hmem := checkLabels_ok_mem _ hcheck
  have hsub : noUnderscore (pyStr (configOfDict d).subject_label) :=
    noUnderscore_pyStr _ (hmem _ (by simp [configValues]))
  have hses : noUnderscore (pyStr (configOfDict d).session_label) :=
    noUnderscore_pyStr _ (hmem _ (by simp [configValues]))
  have htask : noUnderscore (pyStr (configOfDict d).task_label) :=
    noUnderscore_pyStr _ (hmem _ (by simp [configValues]))
  have hacq : noUnderscore (pyStr (configOfDict d).acquisition_label) :=
    noUnderscore_pyStr _ (hmem _ (by simp [configValues]))
  have hdir : noUnderscore (pyStr (configOfDict d).pe_direction_label) :=
    noUnderscore_pyStr _ (hmem _ (by simp [configValues]))
  intro s hs
  simp only [SixTags.toList, List.mem_cons, List.not_mem_nil, or_false] at hs
  rcases hs with rfl | rfl | rfl | rfl | rfl | rfl
  · exact subject_tag_noU _ _ _ h1 hsub
  · exact session_tag_noU _ _ _ h2 hses
  · rw [← h3]
    exact task_tag_noU _ htask
  · exact acquisition_tag_noU _ _ h4 hacq
  · rw [← h5]
    exact pe_direction_tag_noU _ hdir
  · exact run_tag_noU _ _ h6

/-- C1 witness: the default configuration (`Bidifyer()` in tests.py) is
accepted and its tag is the underscore-join of its non-empty sub-tags
(concretely, just `"sub-01"`). -/
theorem tag_is_underscore_join_witness :
    Bidifyer_init (.dict emptyBidsConfigDict) 2 = .ok defaultBidifyer ∧
    defaultBidifyer.tag =
      underscoreJoin (defaultBidifyer.tags.toList.filter (fun s => s ≠ "")) ∧
    defaultBidifyer.tag = "sub-01" := by
  have h : Bidifyer_init (.dict emptyBidsConfigDict) 2 = .ok defaultBidifyer := rfl
  exact ⟨h, (tag_is_underscore_join_of_nonempty_subtags _ _ _ h).1, rfl⟩

/-- C2 (code bug): in the gradient-recalled-and-not-inversion-recovery
branch, sequence name `*fm2d2r` is classified `fmap` and `*fl3d11r` is
classified `anat` with `T2starw` contrast, as the claim says; but an
unrecognized sequence name is NOT classified `unknown`: the branch has no
default arm, so the loop-carried `outfolder`/`experiment` keep the previous
folder's values (here: a preceding functional folder leaks `func`), and on
the first folder the unassigned local raises `NameError`. -/
theorem gr_branch_field_map_anat_and_stale_fallthrough :
    (∀ st desc e, parse_protocols_branch st "GR" desc "*fm2d2r" e = .ok ("fmap", "", "")) ∧
    (∀ st desc e, parse_protocols_branch st "GR" desc "*fl3d11r" e =
      .ok ("anat", "T2starw", "")) ∧
    parse_protocols_branch (LoopState.mk none none) "GR" "" "*unrecognized" none =
      .error .nameError ∧
    parse_protocols_branch (LoopState.mk (some "func") (some "task-rest")) "GR" ""
      "*unrecognized" none = .ok ("func", "task-rest", "") := by
  exact ⟨fun st desc e => rfl, fun st desc e => rfl, rfl, rfl⟩

/-- C3 (code bug): `FunctionalBidifyer.__init__` runs
`super().__init__(self, *args, **kwargs)`, passing the instance itself as
the base `bids_config`; the base constructor's first `bids_config.get`
then raises `AttributeError`.  Construction therefore fails with
`AttributeError` for every configuration — with an empty task label it never
reaches the `BidsInconsistentNamingError` check, and with a non-empty task
label it does not succeed either. -/
theorem functional_composer_constructor_always_attribute_error (d : BidsConfigDict) :
    FunctionalBidifyer_new d = .error .attributeError := rfl

/-- C4 counterexample: the label formatter applied to the empty placeholder
does not return the empty string unchanged — the `d` format code raises
`ValueError` (and no `InvalidNumberError` exists in the code). -/
theorem formatter_empty_string_raises :
    formatter 2 (.str "") = .error .valueError := rfl

/-- C4 (amended): for every precision P in 1..6 and every integer N, the
formatter returns a zero-padded base-10 string of length at least P (digits
after stripping the leading zeros and sign decode back to N); applied to
the empty placeholder — or any other string — it raises `ValueError`, not a
custom `InvalidNumberError`; the tag accessors guard the empty placeholder
themselves and never pass it to the formatter. -/
theorem formatter_pads_integers_base10 (p : Nat) (h1 : 1 ≤ p) (h2 : p ≤ 6) (n : Int) :
    formatter p (.int n) = .ok (pyFormatD p n) ∧
    p ≤ (pyFormatD p n).length ∧
    (0 ≤ n → decodeDecimal (pyFormatD p n).data = n.natAbs ∧
      ∃ k, (pyFormatD p n).data = List.replicate k '0' ++ (natDecimal n.natAbs).data) ∧
    (n < 0 → ∃ k, (pyFormatD p n).data =
      '-' :: (List.replicate k '0' ++ (natDecimal n.natAbs).data)) ∧
    (∀ s, formatter p (.str s) = .error .valueError) := by
  refine ⟨rfl, pyFormatD_length p n, ?_, ?_, fun s => rfl⟩
  · intro hn
    have hneg : ¬ n < 0 := by omega
    constructor
    · unfold pyFormatD
      rw [if_neg hneg]
      rw [zfill_data, decodeDecimal_replicate_zero, decodeDecimal_natDecimal]
    · unfold pyFormatD
      rw [if_neg hneg]
      exact ⟨_, zfill_data _ _⟩
  · intro hn
    unfold pyFormatD
    rw [if_pos hn]
    refine ⟨(p - 1) - (natDecimal n.natAbs).length, ?_⟩
    rw [String.data_append, zfill_data]
    rfl

/-- C4 witness: at precision 2 the formatter maps 3 to the two-character
string `"03"`. -/
theorem formatter_pads_integers_witness :
    formatter 2 (.int 3) = .ok "03" ∧ 2 ≤ (pyFormatD 2 3).length := by
  have h := formatter_pads_integers_base10 2 (by decide) (by decide) 3
  exact ⟨h.1.trans (by rfl), h.2.1⟩

/-- C5: in every accepted configuration the run and acquisition numeric
parts are formatted at fixed width 2 (a fresh `formatter(precision=2)`)
while the subject and session numeric parts use the configured global
precision; the specification's full precision-3 scenario composes to the
expected string, whose run and acquisition parts are two-digit. -/
theorem run_acq_fixed_two_digit_padding (d : BidsConfigDict) (p : Nat) (b : Bidifyer)
    (h : Bidifyer_init (.dict d) p = .ok b) :
    (∀ n : Int, b.config.run_index = .int n → b.tags.runTag = "run-" ++ pyFormatD 2 n) ∧
    (∀ n : Int, b.config.acquisition_number = .int n →
      b.tags.acquisitionTag = "acq-" ++ pyStr b.config.acquisition_label ++ pyFormatD 2 n) ∧
    (∀ n : Int, b.config.subject_number = .int n →
      b.tags.subjectTag = "sub-" ++ pyStr b.config.subject_label ++ pyFormatD p n) ∧
    (∀ n : Int, b.config.session_number = .int n →
      b.tags.sessionTag = "ses-" ++ pyStr b.config.session_label ++ pyFormatD p n) ∧
    Bidifyer_init (.dict fullScenarioDict) 3 = .ok fullScenarioBidifyer ∧
    fullScenarioBidifyer.tag =
      "sub-sublabel001_ses-seslabel003_task-tasklabel_acq-acqlabel05_dir-dirlabel_run-08" := by
  obtain ⟨hcfg, hp, htags, hcheck⟩ := Bidifyer_init_dict_ok d p b h
  obtain ⟨h1, h2, h3, h4, h5, h6⟩ := evalTags_ok_parts _ _ _ htags
  refine ⟨?_, ?_, ?_, ?_, rfl, rfl⟩
  · intro n hn
    rw [hcfg] at hn
    have := (run_tag_int _ n hn).symm.trans h6
    exact (Except.ok.inj this).symm
  · intro n hn
    rw [hcfg] at hn
    have := (acquisition_tag_int _ n hn).symm.trans h4
    rw [hcfg]
    exact (Except.ok.inj this).symm
  · intro n hn
    rw [hcfg] at hn
    have := (subject_tag_int _ p n hn).symm.trans h1
    rw [hcfg]
    exact (Except.ok.inj this).symm
  · intro n hn
    rw [hcfg] at hn
    have := (session_tag_int _ p n hn).symm.trans h2
    rw [hcfg]
    exact (Except.ok.inj this).symm

/-- C5 witness: in the accepted precision-3 scenario the run part is padded
to width 2 (giving `"run-08"`) while the subject part uses width 3. -/
theorem run_acq_fixed_two_digit_witness :
    fullScenarioBidifyer.tags.runTag = "run-" ++ pyFormatD 2 8 ∧
    fullScenarioBidifyer.tags.subjectTag =
      "sub-" ++ pyStr fullScenarioBidifyer.config.subject_label ++ pyFormatD 3 1 ∧
    fullScenarioBidifyer.tags.runTag = "run-08" := by
  have hinit : Bidifyer_init (.dict fullScenarioDict) 3 = .ok fullScenarioBidifyer := rfl
  have h := run_acq_fixed_two_digit_padding fullScenarioDict 3 fullScenarioBidifyer hinit
  exact ⟨h.1 8 rfl, h.2.2.1 1 rfl, rfl⟩

/-- C6: the manifest loop is the filter-map of the per-folder record
builder, and for a folder with a known category and a parsed repetition
count `n`, the folder is dropped from the manifest (without an error)
exactly when `n` strictly exceeds the folder's file count minus one. -/
theorem incomplete_acquisition_exclusion (iF oF : String) (subnum sesnum : Int)
    (skip : Bool) (f : ParsedFolder) (n : Int) (fs : List ParsedFolder)
    (h1 : f.lRepetitions = some n) (h2 : f.config.outfolder ≠ "unknown") :
    create_yaml_files iF oF subnum sesnum skip fs =
      fs.filterMap (folderRecord iF oF ("sub-" ++ pyFormatD 2 subnum)
        ("ses-" ++ pyFormatD 2 sesnum) skip) ∧
    (∀ sub ses, folderRecord iF oF sub ses skip f = none ↔ (f.nfiles : Int) - 1 < n) ∧
    is_incomplete_acquisition f.lRepetitions f.nfiles =
      decide ((f.nfiles : Int) - 1 < n) := by
  have hb : is_incomplete_acquisition f.lRepetitions f.nfiles =
      decide ((f.nfiles : Int) - 1 < n) := by
    unfold is_incomplete_acquisition py2IntGtOpt
    rw [h1]
  refine ⟨createYamlLoop_eq_filterMap _ _ _ _ _ fs, ?_, hb⟩
  intro sub ses
  unfold folderRecord
  rw [hb]
  by_cases hlt : (f.nfiles : Int) - 1 < n
  · simp [hlt]
  · simp [hlt, h2]

/-- C6 witness: a protocol that expects 20 repetitions against 15 files
(14 after subtracting one) produces no manifest record. -/
theorem incomplete_acquisition_exclusion_witness :
    folderRecord "in" "out" "sub-01" "ses-01" false truncatedFolder = none ∧
    (truncatedFolder.nfiles : Int) - 1 < 20 := by
  have h := incomplete_acquisition_exclusion "in" "out" 1 1 false truncatedFolder 20 []
    rfl (by decide)
  exact ⟨(h.2.1 "sub-01" "ses-01").mpr (by decide), by decide⟩

/-- C7 counterexample: the bare label check raises `BidsMalformedLabelError`
on the empty placeholder itself, because Python's `isalnum` is false on the
empty string — contradicting the claim that it never raises there.  (The
constructor only avoids this by skipping empty values.) -/
theorem check_label_empty_string_raises :
    check_label (.str "") = .error .malformedLabel := rfl

/-- C7 (amended): at construction time — where values equal to `""` are
skipped — `BidsMalformedLabelError` is raised if and only if some configured
value is non-empty and not purely alphanumeric (given that the tag
evaluation itself does not fail first); in particular labels containing a
slash, a space, or punctuation are rejected and purely alphanumeric labels
never are. -/
theorem construction_malformed_label_iff (d : BidsConfigDict) (p : Nat) (t : SixTags)
    (h : evalTags (configOfDict d) p = .ok t) :
    Bidifyer_init (.dict d) p = .error .malformedLabel ↔
      ∃ v ∈ configValues (configOfDict d),
        pyEqEmpty v = false ∧ pyIsAlnum (pyStr v) = false := by
  rw [Bidifyer_init_dict, h, ← checkLabels_error_iff]
  cases hc : checkLabels (configValues (configOfDict d)) with
  | ok u => simp [Except.bind, hc]
  | error e => simp [Except.bind, hc]

/-- C7 witness: the direction label `"reverse/"` (tests.py's malformed
label) makes construction fail with `BidsMalformedLabelError`. -/
theorem construction_malformed_label_witness :
    Bidifyer_init (.dict malformedDict) 2 = .error .malformedLabel := by
  have h := construction_malformed_label_iff malformedDict 2 malformedDictTags rfl
  exact h.mpr ⟨.str "reverse/", by decide, by decide, by decide⟩

/-- C8: the magnitude/phase classifier returns `"magnitude"` whenever the
raw image-type tag contains the character `M` (so magnitude wins when both
`M` and `P` occur), `"phase"` when it contains `P` but not `M`, and
`"unknown"` when it contains neither. -/
theorem mag_or_phase_classification (tag : String) :
    ('M' ∈ tag.data → mag_or_phase tag = "magnitude") ∧
    ('P' ∈ tag.data ∧ 'M' ∉ tag.data → mag_or_phase tag = "phase") ∧
    ('M' ∉ tag.data ∧ 'P' ∉ tag.data → mag_or_phase tag = "unknown") ∧
    ('M' ∈ tag.data ∧ 'P' ∈ tag.data → mag_or_phase tag = "magnitude") := by
  have hM := pyInStr_singleton 'M' tag
  have hP := pyInStr_singleton 'P' tag
  unfold mag_or_phase
  refine ⟨fun h => ?_, fun h => ?_, fun h => ?_, fun h => ?_⟩
  · rw [if_pos (hM.mpr h)]
  · rw [if_neg ?_, if_pos (hP.mpr h.1)]
    intro hc
    exact h.2 (hM.mp hc)
  · rw [if_neg ?_, if_neg ?_]
    · intro hc
      exact h.2 (hP.mp hc)
    · intro hc
      exact h.1 (hM.mp hc)
  · rw [if_pos (hM.mpr h.1)]

/-- C8 witness: a tag containing both `M` and `P` is classified
`"magnitude"` — magnitude takes priority. -/
theorem mag_or_phase_witness : mag_or_phase "MP" = "magnitude" := by
  exact (mag_or_phase_classification "MP").2.2.2 (by decide)

/-- C9 counterexample: a folder that takes the physiological classification
path (main DICOM attributes absent, image type present) does NOT contribute
an output record: the trailing catch-all branch overwrites its category with
`unknown` (since `physio` is not in `{anat, func, fmap}`), and `create_yaml`
then drops it even though the acquisition is complete. -/
theorem physio_folder_yields_no_record :
    parse_protocols_step (LoopState.mk none none) (.physioOnly "M") none =
      .ok (some physioFolderRec, LoopState.mk (some "unknown") (some "unknown")) ∧
    physioFolderRec.outfolder = "unknown" ∧
    create_yaml_files "in" "out" 0 0 false [physioParsedFolder] = [] :=
  ⟨rfl, rfl, rfl⟩

/-- C9 (amended): every record appended to the manifest's `Files` list comes
from a folder whose category is not `unknown`, and folders classified
`unknown` never contribute; folders ending up as `func`, `anat` or `fmap` do
contribute subject to the other checks — but a folder on the physiological
path is always downgraded to `unknown` by the trailing catch-all branch and
therefore never contributes a record. -/
theorem manifest_records_never_unknown :
    (∀ iF oF sub ses skip f r, folderRecord iF oF sub ses skip f = some r →
      f.config.outfolder ≠ "unknown") ∧
    (∀ st t e, parse_protocols_step st (.physioOnly t) e =
      .ok (some (FolderRec.mk (mag_or_phase t) "unknown" "unknown" 0 ""),
        LoopState.mk (some "unknown") (some "unknown"))) ∧
    (∀ iF oF subnum sesnum skip fs r, r ∈ create_yaml_files iF oF subnum sesnum skip fs →
      ∃ f, f ∈ fs ∧ f.config.outfolder ≠ "unknown" ∧
        folderRecord iF oF ("sub-" ++ pyFormatD 2 subnum) ("ses-" ++ pyFormatD 2 sesnum)
          skip f = some r) := by
  have hrec : ∀ iF oF sub ses skip f r, folderRecord iF oF sub ses skip f = some r →
      f.config.outfolder ≠ "unknown" := by
    intro iF oF sub ses skip f r hr
    unfold folderRecord at hr
    by_cases hinc : is_incomplete_acquisition f.lRepetitions f.nfiles
    · rw [if_pos hinc] at hr
      exact absurd hr (by simp)
    · rw [if_neg hinc] at hr
      by_cases hu : f.config.outfolder = "unknown"
      · rw [if_pos hu] at hr
        exact absurd hr (by simp)
      · exact hu
  refine ⟨hrec, fun st t e => rfl, ?_⟩
  intro iF oF subnum sesnum skip fs r hr
  have : create_yaml_files iF oF subnum sesnum skip fs =
      fs.filterMap (folderRecord iF oF ("sub-" ++ pyFormatD 2 subnum)
        ("ses-" ++ pyFormatD 2 sesnum) skip) :=
    createYamlLoop_eq_filterMap _ _ _ _ _ fs
  rw [this] at hr
  obtain ⟨f, hf, hfr⟩ := List.mem_filterMap.mp hr
  exact ⟨f, hf, hrec _ _ _ _ _ _ _ hfr, hfr⟩

/-- C9 witness: a complete functional folder does produce a record, and the
theorem certifies that its category is not `unknown`. -/
theorem manifest_records_never_unknown_witness :
    ∃ r, folderRecord "in" "out" "sub-00" "ses-00" false completeFuncFolder = some r ∧
      completeFuncFolder.config.outfolder ≠ "unknown" := by
  refine ⟨_, rfl, ?_⟩
  exact manifest_records_never_unknown.1 "in" "out" "sub-00" "ses-00" false
    completeFuncFolder _ rfl

/-- C10 counterexample: on a protocol text without an `lRepetitions` line the
parser yields `None`, and the completeness check does NOT fail with an
error: under the script's Python 2 semantics `None` orders below every
integer, so the comparison evaluates to `False` and the folder is accepted
as complete. -/
theorem missing_repetitions_returns_false_not_error :
    parse_from_x_protocol "lRepetitions" ["sPhysioImaging\t = \t1"] = .ok none ∧
    is_incomplete_acquisition_of_file ["sPhysioImaging\t = \t1"] 15 = .ok false :=
  ⟨rfl, rfl⟩

/-- C10 (amended): the completeness check always returns a boolean: when the
`lRepetitions` line is absent the parser yields `None` and the Python 2
comparison `None > len(...) - 1` is `False`, so the folder is accepted
rather than excluded or rejected with an error; when the line is present
with value `n` the check returns exactly `n > nfiles - 1`. -/
theorem incomplete_check_total_boolean (lines : List String) (nfiles : Nat) :
    (parse_from_x_protocol "lRepetitions" lines = .ok none →
      is_incomplete_acquisition_of_file lines nfiles = .ok false) ∧
    (∀ n : Int, parse_from_x_protocol "lRepetitions" lines = .ok (some n) →
      is_incomplete_acquisition_of_file lines nfiles =
        .ok (decide ((nfiles : Int) - 1 < n))) := by
  constructor
  · intro h
    unfold is_incomplete_acquisition_of_file
    rw [h]
    rfl
  · intro n h
    unfold is_incomplete_acquisition_of_file
    rw [h]
    rfl

/-- C10 witness: a protocol consisting of one unrelated line parses to
`None` and the check returns the boolean `false` for a 15-file folder. -/
theorem incomplete_check_total_boolean_witness :
    is_incomplete_acquisition_of_file ["ulVersion\t = \t51130001"] 15 = .ok false :=
  (incomplete_check_total_boolean ["ulVersion\t = \t51130001"] 15).1 rfl
